import Mathlib

/-!
# EventPipe icall bridge (`mono/metadata/icall-eventpipe.c`)

A shallow embedding of the `ENABLE_PERFTRACING` half of the file: the thread-holder
registry kept in a thread-local slot, the activity-id control protocol, session `Enable`
and `GetNextEvent`.

Conventions.
* C globals and the thread-local slot live in `World`; every operation takes the id of the
  calling thread and the world, and returns the new world next to its result.
* Everything outside the file (the injected allocator and deallocator, the random source,
  the collection engine) acts on an external state `σ`; each invocation is also appended
  to `World.calls`, so that "is invoked exactly once" is a statement about that list.
* Machine integers are `Nat` / `Int`; byte buffers are `List Nat`.
* A read through a NULL pointer, and a failed `g_assert`, is the result `Except.error`.
-/

namespace EventPipe

/-! ## Data model -/

/-- Modelled from the spec: the macro `EP_ACTIVITY_ID_SIZE` comes from the engine headers;
the spec fixes activity identifiers at exactly 16 bytes. -/
def EP_ACTIVITY_ID_SIZE : Nat := 16

/-- The enum `EventPipeActivityControlCode`, lines 19-25. -/
def EP_ACTIVITY_CONTROL_GET_ID : Nat := 1
def EP_ACTIVITY_CONTROL_SET_ID : Nat := 2
def EP_ACTIVITY_CONTROL_CREATE_ID : Nat := 3
def EP_ACTIVITY_CONTROL_GET_SET_ID : Nat := 4
def EP_ACTIVITY_CONTROL_CREATE_SET_ID : Nat := 5

/-- Modelled from the spec: the engine type `EventPipeThread` is declared outside this file;
the spec gives a thread context the fields `activity_id` and `related_activity_id`, 16 bytes each. -/
structure EventPipeThread where
  activity_id : List Nat
  related_activity_id : List Nat
  deriving DecidableEq, Repr

/-- Modelled from the spec: the engine type `EventPipeThreadHolder` is declared outside this
file; it is the handle kept in the thread-local slot and it points at the thread context
(a pointer, hence nullable). -/
structure EventPipeThreadHolder where
  thread : Option EventPipeThread
  deriving DecidableEq, Repr

/-- The struct `EventPipeProviderConfigurationNative`, lines 27-32 (strings as UTF-16 code units). -/
structure EventPipeProviderConfigurationNative where
  provider_name : Option (List Nat)
  keywords : Nat
  logging_level : Nat
  filter_data : Option (List Nat)
  deriving DecidableEq, Repr

/-- The struct `EventPipeEventInstanceData`, lines 46-55. -/
structure EventPipeEventInstanceData where
  provider_id : Int
  event_id : Nat
  thread_id : Nat
  timestamp : Int
  activity_id : List Nat
  related_activity_id : List Nat
  payload : Option Nat
  payload_len : Nat
  deriving DecidableEq, Repr

/-- Modelled from the spec: the engine type `EventPipeEvent` is declared outside this file; the
bridge reads its provider (a pointer, read as an integer) and its numeric id. -/
structure EventPipeEvent where
  provider : Int
  event_id : Nat
  deriving DecidableEq, Repr

/-- Modelled from the spec: the engine type `EventPipeEventInstance` is declared outside this
file; its fields are the ones the bridge reads through the `ep_event_instance_get_*`
accessors, with the types of the record they are copied into. The event pointer is nullable:
the bridge tests it. -/
structure EventPipeEventInstance where
  ep_event : Option EventPipeEvent
  thread_id : Nat
  timestamp : Int
  activity_id : List Nat
  related_activity_id : List Nat
  data : Option Nat
  data_len : Nat
  deriving DecidableEq, Repr

/-- The two sink kinds `Enable` chooses between. -/
inductive EventPipeSessionType where
  | EP_SESSION_TYPE_FILE
  | EP_SESSION_TYPE_LISTENER
  deriving DecidableEq, Repr

/-- The argument list of the engine entry point `ep_enable`, in call order (lines 233-242). -/
structure EpEnableArgs where
  output_path : Option (List Nat)
  circular_buffer_size_in_mb : Nat
  providers : Option (List EventPipeProviderConfigurationNative)
  providers_len : Nat
  session_type : EventPipeSessionType
  format : Int
  rundown_requested : Bool
  stream : Option Nat
  enable_sample_profiler : Bool
  deriving DecidableEq, Repr

/-- One entry per invocation of something that lives outside the file. -/
inductive Call where
  | thread_holder_alloc
  | thread_holder_free (thread_holder : EventPipeThreadHolder)
  | mono_rand_close
  | ep_enable (args : EpEnableArgs)
  | ep_start_streaming (session_id : Nat)
  | ep_get_next_event (session_id : Nat)
  deriving DecidableEq, Repr

/-- What a read through a NULL pointer, or a failed `g_assert`, results in. -/
inductive Fault where
  | null_thread_holder
  | assertion_failed
  deriving DecidableEq, Repr

/-- The collaborators the bridge calls directly, as functions on the external state `σ`. -/
structure Engine (σ : Type) where
  /-- The enum constant `EP_SERIALIZATION_FORMAT_COUNT` of the engine headers. -/
  EP_SERIALIZATION_FORMAT_COUNT : Int
  /-- One byte from the random provider. -/
  rand_byte : σ → Nat × σ
  g_utf16_len : Option (List Nat) → Nat
  mono_utf16_to_utf8 : Option (List Nat) → Nat → Option (List Nat)
  ep_enable : EpEnableArgs → σ → Nat × σ
  ep_start_streaming : Nat → σ → σ
  ep_get_next_event : Nat → σ → Option EventPipeEventInstance × σ

/-- The file-level globals (lines 57-62), the thread-local slot of every thread, the external
state and the log of external invocations. -/
structure World (σ : Type) where
  ep_rt_mono_initialized : Bool
  ep_rt_mono_rand_provider : Option Nat
  thread_holder_alloc_callback_func : Option (σ → Option EventPipeThreadHolder × σ)
  thread_holder_free_callback_func : Option (EventPipeThreadHolder → σ → σ)
  tls : Nat → Option EventPipeThreadHolder
  ext : σ
  calls : List Call

variable {σ : Type}

/-! ## Thread context registry (lines 75-160) -/

/-- The call `mono_native_tls_get_value (ep_rt_mono_thread_holder_tls_id)` on thread `tid`. -/
def mono_native_tls_get_value (tid : Nat) (w : World σ) : Option EventPipeThreadHolder :=
  w.tls tid

/-- The call `mono_native_tls_set_value (ep_rt_mono_thread_holder_tls_id, v)` on thread `tid`. -/
def mono_native_tls_set_value (tid : Nat) (v : Option EventPipeThreadHolder) (w : World σ) :
    World σ :=
  { w with tls := Function.update w.tls tid v }

/-- Modelled from the spec: the accessor `ep_thread_holder_get_thread` is declared outside this
file. It reads the holder's thread pointer through the holder it is handed, so on an absent
(NULL) holder there is nothing to read and the access is a fault. -/
def ep_thread_holder_get_thread :
    Option EventPipeThreadHolder → Except Fault (Option EventPipeThread)
  | some thread_holder => .ok thread_holder.thread
  | none => .error Fault.null_thread_holder

/-- Function `eventpipe_thread_get`, lines 75-81. -/
def eventpipe_thread_get (tid : Nat) (w : World σ) :
    World σ × Except Fault (Option EventPipeThread) :=
  let thread_holder := mono_native_tls_get_value tid w
  (w, if thread_holder.isSome then ep_thread_holder_get_thread thread_holder else .ok none)

/-- Function `eventpipe_thread_get_or_create`, lines 83-93. -/
def eventpipe_thread_get_or_create (tid : Nat) (w : World σ) :
    World σ × Except Fault (Option EventPipeThread) :=
  let thread_holder := mono_native_tls_get_value tid w
  match thread_holder, w.thread_holder_alloc_callback_func with
  | none, some alloc =>
    let r := alloc w.ext
    let w1 := { w with ext := r.2, calls := w.calls ++ [Call.thread_holder_alloc] }
    let thread_holder := r.1
    let w2 := mono_native_tls_set_value tid thread_holder w1
    (w2, ep_thread_holder_get_thread thread_holder)
  | _, _ => (w, ep_thread_holder_get_thread thread_holder)

/-- Function `eventpipe_thread_exited`, lines 95-105. -/
def eventpipe_thread_exited (tid : Nat) (w : World σ) : World σ :=
  if w.ep_rt_mono_initialized then
    let thread_holder := mono_native_tls_get_value tid w
    let w1 :=
      match thread_holder, w.thread_holder_free_callback_func with
      | some h, some free =>
        { w with ext := free h w.ext, calls := w.calls ++ [Call.thread_holder_free h] }
      | _, _ => w
    mono_native_tls_set_value tid none w1
  else w

/-- Function `profiler_eventpipe_thread_exited`, lines 107-112. -/
def profiler_eventpipe_thread_exited (tid : Nat) (w : World σ) : World σ :=
  eventpipe_thread_exited tid w

/-- Function `mono_eventpipe_init`, lines 114-148, as far as it writes the globals of this file:
the two callbacks, a freshly allocated thread-local key (every slot under it is empty), the
random provider handle returned by `mono_rand_init` (here `rand_provider`) and the flag.
Filling the function table is the direct dispatch used below. -/
def mono_eventpipe_init
    (thread_holder_alloc_func : Option (σ → Option EventPipeThreadHolder × σ))
    (thread_holder_free_func : Option (EventPipeThreadHolder → σ → σ))
    (rand_provider : Option Nat) (w : World σ) : World σ :=
  { w with
    thread_holder_alloc_callback_func := thread_holder_alloc_func
    thread_holder_free_callback_func := thread_holder_free_func
    tls := fun _ => none
    ep_rt_mono_rand_provider := rand_provider
    ep_rt_mono_initialized := true }

/-- Function `mono_eventpipe_fini`, lines 150-160. -/
def mono_eventpipe_fini (w : World σ) : World σ :=
  let w1 := if w.ep_rt_mono_initialized then
      { w with calls := w.calls ++ [Call.mono_rand_close] }
    else w
  { w1 with
    ep_rt_mono_rand_provider := none
    thread_holder_alloc_callback_func := none
    thread_holder_free_callback_func := none
    ep_rt_mono_initialized := false }

/-! ## Activity correlation protocol (lines 249-283) -/

/-- Copy of the first `n` bytes of `src` over the first `n` bytes of `dst` (`memcpy (dst, src, n)`). -/
def memcpy (dst src : List Nat) (n : Nat) : List Nat :=
  src.take n ++ dst.drop n

/-- Modelled from the spec: the runtime routine `mono_rand_try_get_bytes` is declared outside
this file; per the spec the random source is an external capability that produces the requested
number of bytes, here `n` bytes drawn one after the other with `Engine.rand_byte`. -/
def mono_rand_try_get_bytes (E : Engine σ) : Nat → σ → List Nat × σ
  | 0, s => ([], s)
  | n + 1, s =>
    let b := E.rand_byte s
    let r := mono_rand_try_get_bytes E n b.2
    (b.1 :: r.1, r.2)

/-- Function `rand_try_get_bytes_func`, lines 67-73: the assertion that the random provider is
open, then `buffer_size` bytes from `mono_rand_try_get_bytes` into `buffer`. Returns the world,
the buffer and the `gboolean` result. -/
def rand_try_get_bytes_func (E : Engine σ) (buffer : List Nat) (buffer_size : Nat)
    (w : World σ) : World σ × List Nat × Except Fault Bool :=
  match w.ep_rt_mono_rand_provider with
  | none => (w, buffer, .error Fault.assertion_failed)
  | some _ =>
    let r := mono_rand_try_get_bytes E buffer_size w.ext
    ({ w with ext := r.2 }, memcpy buffer r.1 buffer_size, .ok true)

/-- Modelled from the spec: the engine entry point `ep_thread_get` is declared outside this
file. It is the non-creating read of the calling thread's context; the engine reaches it
through the function-table entry `ep_rt_mono_thread_get`, which `mono_eventpipe_init` binds to
`eventpipe_thread_get` (line 129). -/
def ep_thread_get (tid : Nat) (w : World σ) :
    World σ × Except Fault (Option EventPipeThread) :=
  eventpipe_thread_get tid w

/-- Modelled from the spec: the engine helper `ep_thread_get_activity_id` is declared outside
this file; per the spec it copies the thread's current activity id out, here into the first
`activity_id_len` bytes of the caller's buffer. -/
def ep_thread_get_activity_id (thread : EventPipeThread) (activity_id : List Nat)
    (activity_id_len : Nat) : List Nat :=
  memcpy activity_id thread.activity_id activity_id_len

/-- The store through the thread pointer obtained from the slot of thread `tid`: the holder in
that slot now points at the updated thread. -/
def thread_store (tid : Nat) (thread : EventPipeThread) (w : World σ) : World σ :=
  match w.tls tid with
  | some _ => { w with tls := Function.update w.tls tid (some { thread := some thread }) }
  | none => w

/-- Modelled from the spec: the engine helper `ep_thread_set_activity_id` is declared outside
this file; per the spec it overwrites the thread's current activity id from the input, here
the first `activity_id_len` bytes. -/
def ep_thread_set_activity_id (tid : Nat) (thread : EventPipeThread) (activity_id : List Nat)
    (activity_id_len : Nat) (w : World σ) : World σ :=
  thread_store tid
    { thread with activity_id := memcpy thread.activity_id activity_id activity_id_len } w

/-- Modelled from the spec: the engine helper `ep_thread_create_activity_id` is declared outside
this file; per the spec it synthesises a fresh random id from the external random source into
the output, independent of any context. The engine reaches that source through the
function-table entry `ep_rt_mono_rand_try_get_bytes`, which `mono_eventpipe_init` binds to
`rand_try_get_bytes_func` (line 128). -/
def ep_thread_create_activity_id (E : Engine σ) (activity_id : List Nat)
    (activity_id_len : Nat) (w : World σ) : World σ × List Nat × Except Fault Bool :=
  rand_try_get_bytes_func E activity_id activity_id_len w

/-- Function `ves_icall_System_Diagnostics_Tracing_EventPipeInternal_EventActivityIdControl`,
lines 249-283. Returns the world, the caller's buffer and the `int32_t` result. -/
def ves_icall_System_Diagnostics_Tracing_EventPipeInternal_EventActivityIdControl
    (E : Engine σ) (tid : Nat) (control_code : Nat) (activity_id : List Nat) (w : World σ) :
    World σ × List Nat × Except Fault Int :=
  match ep_thread_get tid w with
  | (w0, .error f) => (w0, activity_id, .error f)
  | (w0, .ok none) => (w0, activity_id, .ok 1)
  | (w0, .ok (some thread)) =>
    let current_activity_id : List Nat := List.replicate EP_ACTIVITY_ID_SIZE 0
    if control_code = EP_ACTIVITY_CONTROL_GET_ID then
      (w0, ep_thread_get_activity_id thread activity_id EP_ACTIVITY_ID_SIZE, .ok 0)
    else if control_code = EP_ACTIVITY_CONTROL_SET_ID then
      (ep_thread_set_activity_id tid thread activity_id EP_ACTIVITY_ID_SIZE w0, activity_id, .ok 0)
    else if control_code = EP_ACTIVITY_CONTROL_CREATE_ID then
      match ep_thread_create_activity_id E activity_id EP_ACTIVITY_ID_SIZE w0 with
      | (w1, activity_id1, .error f) => (w1, activity_id1, .error f)
      | (w1, activity_id1, .ok _) => (w1, activity_id1, .ok 0)
    else if control_code = EP_ACTIVITY_CONTROL_GET_SET_ID then
      let activity_id1 := ep_thread_get_activity_id thread activity_id EP_ACTIVITY_ID_SIZE
      match ep_thread_create_activity_id E current_activity_id current_activity_id.length
          w0 with
      | (w1, _, .error f) => (w1, activity_id1, .error f)
      | (w1, current_activity_id1, .ok _) =>
        let w2 :=
          ep_thread_set_activity_id tid thread current_activity_id1
            current_activity_id.length w1
        (w2, activity_id1, .ok 0)
    else
      (w0, activity_id, .ok 1)

/-! ## Session lifecycle (lines 211-247, 285-309) -/

/-- Function `ves_icall_System_Diagnostics_Tracing_EventPipeInternal_Enable`, lines 217-247.
The parameter `format` is an `int32_t` and the enum constant an `int`, so the comparison is
the signed one. -/
def ves_icall_System_Diagnostics_Tracing_EventPipeInternal_Enable
    (E : Engine σ) (output_file : Option (List Nat)) (format : Int)
    (circular_buffer_size_mb : Nat)
    (providers : Option (List EventPipeProviderConfigurationNative)) (providers_len : Nat)
    (w : World σ) : World σ × Nat :=
  if circular_buffer_size_mb = 0 ∨ format > E.EP_SERIALIZATION_FORMAT_COUNT ∨
      providers_len = 0 ∨ providers = none then
    (w, 0)
  else
    let output_file_utf8 := E.mono_utf16_to_utf8 output_file (E.g_utf16_len output_file)
    let args : EpEnableArgs :=
      { output_path := output_file_utf8
        circular_buffer_size_in_mb := circular_buffer_size_mb
        providers := providers
        providers_len := providers_len
        session_type :=
          if output_file ≠ none then EventPipeSessionType.EP_SESSION_TYPE_FILE
          else EventPipeSessionType.EP_SESSION_TYPE_LISTENER
        format := format
        rundown_requested := true
        stream := none
        enable_sample_profiler := true }
    let r := E.ep_enable args w.ext
    let session_id := r.1
    let w1 := { w with ext := r.2, calls := w.calls ++ [Call.ep_enable args] }
    let w2 := { w1 with
      ext := E.ep_start_streaming session_id w1.ext
      calls := w1.calls ++ [Call.ep_start_streaming session_id] }
    (w2, session_id)

/-- Function `ves_icall_System_Diagnostics_Tracing_EventPipeInternal_GetNextEvent`,
lines 285-309. The record pointer `inst` is the C parameter `instance`; returns the world, the
record and the `MonoBoolean` result. -/
def ves_icall_System_Diagnostics_Tracing_EventPipeInternal_GetNextEvent
    (E : Engine σ) (session_id : Nat) (inst : Option EventPipeEventInstanceData)
    (w : World σ) : World σ × Option EventPipeEventInstanceData × Except Fault Bool :=
  match inst with
  | none => (w, none, .error Fault.assertion_failed)
  | some data =>
    let r := E.ep_get_next_event session_id w.ext
    let w1 := { w with ext := r.2, calls := w.calls ++ [Call.ep_get_next_event session_id] }
    match r.1 with
    | some next_instance =>
      let data1 :=
        match next_instance.ep_event with
        | some ep_event =>
          { data with provider_id := ep_event.provider, event_id := ep_event.event_id }
        | none => data
      let data2 :=
        { data1 with
          thread_id := next_instance.thread_id
          timestamp := next_instance.timestamp
          activity_id :=
            memcpy data1.activity_id next_instance.activity_id EP_ACTIVITY_ID_SIZE
          related_activity_id :=
            memcpy data1.related_activity_id next_instance.related_activity_id
              EP_ACTIVITY_ID_SIZE
          payload := next_instance.data
          payload_len := next_instance.data_len }
      (w1, some data2, .ok true)
    | none => (w1, some data, .ok false)

/-! ## State observations and concrete inputs -/

/-- The context of thread `tid`: the thread its slot's holder points at, if both exist. -/
def current_thread (tid : Nat) (w : World σ) : Option EventPipeThread :=
  match w.tls tid with
  | some thread_holder => thread_holder.thread
  | none => none

/-- An event instance that carries an event. -/
def sampleInstance : EventPipeEventInstance :=
  { ep_event := some { provider := 4242, event_id := 5 }, thread_id := 3, timestamp := 2000,
    activity_id := List.replicate 16 1, related_activity_id := List.replicate 16 2,
    data := some 8192, data_len := 24 }

/-- A sample engine over a tape of random bytes: two serialization formats, session id 1, one
pending event instance without an event on session 1, `sampleInstance` on session 2 and nothing
on any other session. -/
def sampleEngine : Engine (List Nat) where
  EP_SERIALIZATION_FORMAT_COUNT := 2
  rand_byte := fun s => (s.headD 0, s.tail)
  g_utf16_len := fun o => (o.getD []).length
  mono_utf16_to_utf8 := fun o n => o.map (List.take n)
  ep_enable := fun _ s => (1, s)
  ep_start_streaming := fun _ s => s
  ep_get_next_event := fun session_id s =>
    (if session_id = 1 then
      some
        { ep_event := none, thread_id := 3, timestamp := 1000,
          activity_id := List.replicate 16 1, related_activity_id := List.replicate 16 2,
          data := some 4096, data_len := 8 }
     else if session_id = 2 then some sampleInstance
     else none, s)

/-- A 16-byte id that carries the bits of a random (version 4) GUID. -/
def sampleId : List Nat :=
  [0x10, 0x32, 0x54, 0x76, 0x98, 0xba, 0x4c, 0x4e, 0x81, 0x23, 0x45, 0x67, 0x89, 0xab, 0xcd, 0xef]

/-- A sample holder whose thread carries `sampleId`. -/
def sampleHolder : EventPipeThreadHolder :=
  { thread := some { activity_id := sampleId, related_activity_id := List.replicate 16 0 } }

/-- An initialised world: both capabilities registered, thread 0 holds `sampleHolder`, every
other slot is empty, and the random source is about to produce `sampleId`. -/
def sampleWorld : World (List Nat) where
  ep_rt_mono_initialized := true
  ep_rt_mono_rand_provider := some 1
  thread_holder_alloc_callback_func := some (fun s => (some sampleHolder, s))
  thread_holder_free_callback_func := some (fun _ s => s)
  tls := fun tid => if tid = 0 then some sampleHolder else none
  ext := sampleId
  calls := []

/-- One provider configuration: name "P", all keywords, level 4, no filter data. -/
def sampleProvider : EventPipeProviderConfigurationNative :=
  { provider_name := some [0x50], keywords := 0xffffffffffffffff, logging_level := 4,
    filter_data := none }

/-- A caller's record with recognisable previous contents. -/
def sampleRecord : EventPipeEventInstanceData :=
  { provider_id := 7, event_id := 9, thread_id := 11, timestamp := 13,
    activity_id := List.replicate 16 0xaa, related_activity_id := List.replicate 16 0xbb,
    payload := none, payload_len := 0 }

/-- A caller's 16-byte buffer, zeroed. -/
def sampleBuffer : List Nat := List.replicate 16 0

/-! ## Auxiliary lemmas -/

theorem memcpy_full (dst src : List Nat) (n : Nat) (hs : src.length = n) (hd : dst.length ≤ n) :
    memcpy dst src n = src := by
  unfold memcpy
  rw [List.take_of_length_le (le_of_eq hs), List.drop_of_length_le hd, List.append_nil]

theorem mono_rand_try_get_bytes_length (E : Engine σ) (n : Nat) (s : σ) : (mono_rand_try_get_bytes E n s).1.length = n := by
  induction n generalizing s with
  | zero => rfl
  | succ n ih => simp [mono_rand_try_get_bytes, ih]

theorem ep_thread_get_eq (tid : Nat) (w : World σ) :
    ep_thread_get tid w = (w, .ok (current_thread tid w)) := by
  unfold ep_thread_get eventpipe_thread_get mono_native_tls_get_value current_thread
  cases h : w.tls tid <;> simp [ep_thread_holder_get_thread]

theorem current_thread_store (tid : Nat) (t u : EventPipeThread) (w : World σ)
    (h : current_thread tid w = some t) :
    current_thread tid (thread_store tid u w) = some u := by
  unfold current_thread at h
  unfold thread_store current_thread
  cases hs : w.tls tid with
  | none => rw [hs] at h; cases h
  | some hd => simp

theorem current_thread_ext (tid : Nat) (w : World σ) (s : σ) :
    current_thread tid { w with ext := s } = current_thread tid w := rfl

/-! ## Session enable -/

/-- C1: whenever the buffer size is 0, or the provider count is 0, or the provider array is
absent, `Enable` returns the failure sentinel 0 and leaves the world, and so the engine state and
the log of engine calls, as it was: neither `ep_enable` nor `ep_start_streaming` is invoked,
whatever the output path, the format and the other arguments are. -/
theorem enable_rejects_without_engine_call (E : Engine σ) (output_file : Option (List Nat))
    (format : Int) (circular_buffer_size_mb : Nat)
    (providers : Option (List EventPipeProviderConfigurationNative)) (providers_len : Nat)
    (w : World σ)
    (h : circular_buffer_size_mb = 0 ∨ providers_len = 0 ∨ providers = none) :
    ves_icall_System_Diagnostics_Tracing_EventPipeInternal_Enable E output_file format
      circular_buffer_size_mb providers providers_len w = (w, 0) := by
  unfold ves_icall_System_Diagnostics_Tracing_EventPipeInternal_Enable
  rw [if_pos]
  rcases h with h | h | h
  · exact Or.inl h
  · exact Or.inr (Or.inr (Or.inl h))
  · exact Or.inr (Or.inr (Or.inr h))

theorem enable_rejects_without_engine_call_witness :
    ((0 : Nat) = 0 ∨ (1 : Nat) = 0 ∨ some [sampleProvider] = none) ∧
      ves_icall_System_Diagnostics_Tracing_EventPipeInternal_Enable sampleEngine none 0 0
        (some [sampleProvider]) 1 sampleWorld = (sampleWorld, 0) :=
  ⟨Or.inl rfl,
    enable_rejects_without_engine_call sampleEngine none 0 0 (some [sampleProvider]) 1
      sampleWorld (Or.inl rfl)⟩

/-- C4, what the code does: a format that is not greater than `EP_SERIALIZATION_FORMAT_COUNT`
passes the guard of line 228, so with a positive buffer size and a present, non-empty provider
array `Enable` calls `ep_enable` with that format and then `ep_start_streaming`, and returns the
engine's session id. This covers the format equal to `EP_SERIALIZATION_FORMAT_COUNT` and every
negative format, both outside the recognised set. -/
theorem enable_accepts_format_up_to_count (E : Engine σ) (output_file : Option (List Nat))
    (format : Int) (mb : Nat) (ps : List EventPipeProviderConfigurationNative) (len : Nat)
    (w : World σ) (hformat : format ≤ E.EP_SERIALIZATION_FORMAT_COUNT) :
    ∃ args : EpEnableArgs, args.format = format ∧
      (ves_icall_System_Diagnostics_Tracing_EventPipeInternal_Enable E output_file format
        (mb + 1) (some ps) (len + 1) w).1.calls =
          w.calls ++ [Call.ep_enable args, Call.ep_start_streaming (E.ep_enable args w.ext).1] ∧
      (ves_icall_System_Diagnostics_Tracing_EventPipeInternal_Enable E output_file format
        (mb + 1) (some ps) (len + 1) w).2 = (E.ep_enable args w.ext).1 := by
  unfold ves_icall_System_Diagnostics_Tracing_EventPipeInternal_Enable
  rw [if_neg (by simp [not_lt.mpr hformat])]
  exact ⟨_, rfl, by simp, rfl⟩

theorem enable_accepts_format_up_to_count_witness :
    (2 : Int) ≤ sampleEngine.EP_SERIALIZATION_FORMAT_COUNT ∧
    ∃ args : EpEnableArgs, args.format = 2 ∧
      (ves_icall_System_Diagnostics_Tracing_EventPipeInternal_Enable sampleEngine none 2
        (15 + 1) (some [sampleProvider]) (0 + 1) sampleWorld).1.calls =
          sampleWorld.calls ++
            [Call.ep_enable args,
              Call.ep_start_streaming (sampleEngine.ep_enable args sampleWorld.ext).1] ∧
      (ves_icall_System_Diagnostics_Tracing_EventPipeInternal_Enable sampleEngine none 2
        (15 + 1) (some [sampleProvider]) (0 + 1) sampleWorld).2 =
          (sampleEngine.ep_enable args sampleWorld.ext).1 :=
  ⟨by decide,
    enable_accepts_format_up_to_count sampleEngine none 2 15 [sampleProvider] 0 sampleWorld
      (by decide)⟩

/-! ## Activity-id control -/

theorem activity_control_no_context (E : Engine σ) (tid control_code : Nat)
    (activity_id : List Nat) (w : World σ) (h : current_thread tid w = none) :
    ves_icall_System_Diagnostics_Tracing_EventPipeInternal_EventActivityIdControl E tid
      control_code activity_id w = (w, activity_id, .ok 1) := by
  unfold ves_icall_System_Diagnostics_Tracing_EventPipeInternal_EventActivityIdControl
  rw [ep_thread_get_eq, h]

theorem activity_control_get_id (E : Engine σ) (tid : Nat) (activity_id : List Nat)
    (w : World σ) (t : EventPipeThread) (h : current_thread tid w = some t) :
    ves_icall_System_Diagnostics_Tracing_EventPipeInternal_EventActivityIdControl E tid
      EP_ACTIVITY_CONTROL_GET_ID activity_id w =
      (w, memcpy activity_id t.activity_id EP_ACTIVITY_ID_SIZE, .ok 0) := by
  unfold ves_icall_System_Diagnostics_Tracing_EventPipeInternal_EventActivityIdControl
  rw [ep_thread_get_eq, h]
  simp [ep_thread_get_activity_id]

theorem activity_control_set_id (E : Engine σ) (tid : Nat) (activity_id : List Nat)
    (w : World σ) (t : EventPipeThread) (h : current_thread tid w = some t) :
    ves_icall_System_Diagnostics_Tracing_EventPipeInternal_EventActivityIdControl E tid
      EP_ACTIVITY_CONTROL_SET_ID activity_id w =
      (thread_store tid
          { t with activity_id := memcpy t.activity_id activity_id EP_ACTIVITY_ID_SIZE } w,
        activity_id, .ok 0) := by
  unfold ves_icall_System_Diagnostics_Tracing_EventPipeInternal_EventActivityIdControl
  rw [ep_thread_get_eq, h]
  simp [ep_thread_set_activity_id, EP_ACTIVITY_CONTROL_SET_ID, EP_ACTIVITY_CONTROL_GET_ID]

theorem activity_control_create_id (E : Engine σ) (tid : Nat) (activity_id : List Nat)
    (w : World σ) (t : EventPipeThread) (p : Nat) (h : current_thread tid w = some t)
    (hp : w.ep_rt_mono_rand_provider = some p) :
    ves_icall_System_Diagnostics_Tracing_EventPipeInternal_EventActivityIdControl E tid
      EP_ACTIVITY_CONTROL_CREATE_ID activity_id w =
      ({ w with ext := (mono_rand_try_get_bytes E EP_ACTIVITY_ID_SIZE w.ext).2 },
        memcpy activity_id (mono_rand_try_get_bytes E EP_ACTIVITY_ID_SIZE w.ext).1
          EP_ACTIVITY_ID_SIZE,
        .ok 0) := by
  unfold ves_icall_System_Diagnostics_Tracing_EventPipeInternal_EventActivityIdControl
  rw [ep_thread_get_eq, h]
  simp [ep_thread_create_activity_id, rand_try_get_bytes_func, hp, EP_ACTIVITY_CONTROL_SET_ID,
    EP_ACTIVITY_CONTROL_GET_ID, EP_ACTIVITY_CONTROL_CREATE_ID]

theorem activity_control_create_id_closed (E : Engine σ) (tid : Nat) (activity_id : List Nat)
    (w : World σ) (t : EventPipeThread) (h : current_thread tid w = some t)
    (hp : w.ep_rt_mono_rand_provider = none) :
    ves_icall_System_Diagnostics_Tracing_EventPipeInternal_EventActivityIdControl E tid
      EP_ACTIVITY_CONTROL_CREATE_ID activity_id w =
      (w, activity_id, .error Fault.assertion_failed) := by
  unfold ves_icall_System_Diagnostics_Tracing_EventPipeInternal_EventActivityIdControl
  rw [ep_thread_get_eq, h]
  simp [ep_thread_create_activity_id, rand_try_get_bytes_func, hp, EP_ACTIVITY_CONTROL_SET_ID,
    EP_ACTIVITY_CONTROL_GET_ID, EP_ACTIVITY_CONTROL_CREATE_ID]

theorem activity_control_get_set_id (E : Engine σ) (tid : Nat) (activity_id : List Nat)
    (w : World σ) (t : EventPipeThread) (p : Nat) (h : current_thread tid w = some t)
    (hp : w.ep_rt_mono_rand_provider = some p) :
    ves_icall_System_Diagnostics_Tracing_EventPipeInternal_EventActivityIdControl E tid
      EP_ACTIVITY_CONTROL_GET_SET_ID activity_id w =
      (thread_store tid
          { t with
            activity_id :=
              memcpy t.activity_id (mono_rand_try_get_bytes E EP_ACTIVITY_ID_SIZE w.ext).1
                EP_ACTIVITY_ID_SIZE }
          { w with ext := (mono_rand_try_get_bytes E EP_ACTIVITY_ID_SIZE w.ext).2 },
        memcpy activity_id t.activity_id EP_ACTIVITY_ID_SIZE, .ok 0) := by
  unfold ves_icall_System_Diagnostics_Tracing_EventPipeInternal_EventActivityIdControl
  rw [ep_thread_get_eq, h]
  have hm : ∀ l : List Nat, l.length = EP_ACTIVITY_ID_SIZE →
      memcpy (List.replicate EP_ACTIVITY_ID_SIZE 0) l EP_ACTIVITY_ID_SIZE = l :=
    fun l hl => memcpy_full _ l _ hl (by simp)
  simp [ep_thread_create_activity_id, rand_try_get_bytes_func, hp, ep_thread_set_activity_id,
    ep_thread_get_activity_id, EP_ACTIVITY_CONTROL_SET_ID, EP_ACTIVITY_CONTROL_GET_ID,
    EP_ACTIVITY_CONTROL_CREATE_ID, EP_ACTIVITY_CONTROL_GET_SET_ID,
    hm _ (mono_rand_try_get_bytes_length E _ _)]

theorem activity_control_get_set_id_closed (E : Engine σ) (tid : Nat) (activity_id : List Nat)
    (w : World σ) (t : EventPipeThread) (h : current_thread tid w = some t)
    (hp : w.ep_rt_mono_rand_provider = none) :
    ves_icall_System_Diagnostics_Tracing_EventPipeInternal_EventActivityIdControl E tid
      EP_ACTIVITY_CONTROL_GET_SET_ID activity_id w =
      (w, memcpy activity_id t.activity_id EP_ACTIVITY_ID_SIZE,
        .error Fault.assertion_failed) := by
  unfold ves_icall_System_Diagnostics_Tracing_EventPipeInternal_EventActivityIdControl
  rw [ep_thread_get_eq, h]
  simp [ep_thread_create_activity_id, rand_try_get_bytes_func, hp, ep_thread_get_activity_id,
    EP_ACTIVITY_CONTROL_SET_ID, EP_ACTIVITY_CONTROL_GET_ID, EP_ACTIVITY_CONTROL_CREATE_ID,
    EP_ACTIVITY_CONTROL_GET_SET_ID]

theorem activity_control_other_code (E : Engine σ) (tid control_code : Nat)
    (activity_id : List Nat) (w : World σ) (t : EventPipeThread)
    (h : current_thread tid w = some t)
    (h1 : control_code ≠ EP_ACTIVITY_CONTROL_GET_ID)
    (h2 : control_code ≠ EP_ACTIVITY_CONTROL_SET_ID)
    (h3 : control_code ≠ EP_ACTIVITY_CONTROL_CREATE_ID)
    (h4 : control_code ≠ EP_ACTIVITY_CONTROL_GET_SET_ID) :
    ves_icall_System_Diagnostics_Tracing_EventPipeInternal_EventActivityIdControl E tid
      control_code activity_id w = (w, activity_id, .ok 1) := by
  unfold ves_icall_System_Diagnostics_Tracing_EventPipeInternal_EventActivityIdControl
  rw [ep_thread_get_eq, h]
  simp [h1, h2, h3, h4]

/-- C2: on a thread that has a context, for every 16-byte value `X` and every 16-byte buffer
`buf`, `EventActivityIdControl (SET_ID, X)` followed on the same thread by
`EventActivityIdControl (GET_ID, buf)` returns 0 from both calls and leaves `buf` equal to `X`,
byte for byte. -/
theorem set_id_then_get_id_roundtrip (E : Engine σ) (tid : Nat) (X buf : List Nat)
    (w : World σ) (t : EventPipeThread) (hctx : current_thread tid w = some t)
    (hX : X.length = EP_ACTIVITY_ID_SIZE) (hbuf : buf.length = EP_ACTIVITY_ID_SIZE) :
    (ves_icall_System_Diagnostics_Tracing_EventPipeInternal_EventActivityIdControl E tid
      EP_ACTIVITY_CONTROL_SET_ID X w).2.2 = .ok 0 ∧
    (ves_icall_System_Diagnostics_Tracing_EventPipeInternal_EventActivityIdControl E tid
      EP_ACTIVITY_CONTROL_GET_ID buf
      (ves_icall_System_Diagnostics_Tracing_EventPipeInternal_EventActivityIdControl E tid
        EP_ACTIVITY_CONTROL_SET_ID X w).1).2.2 = .ok 0 ∧
    (ves_icall_System_Diagnostics_Tracing_EventPipeInternal_EventActivityIdControl E tid
      EP_ACTIVITY_CONTROL_GET_ID buf
      (ves_icall_System_Diagnostics_Tracing_EventPipeInternal_EventActivityIdControl E tid
        EP_ACTIVITY_CONTROL_SET_ID X w).1).2.1 = X := by
  rw [activity_control_set_id E tid X w t hctx]
  rw [activity_control_get_id E tid buf _ _ (current_thread_store tid t _ w hctx)]
  refine ⟨rfl, rfl, ?_⟩
  show memcpy buf (memcpy t.activity_id X EP_ACTIVITY_ID_SIZE) EP_ACTIVITY_ID_SIZE = X
  unfold memcpy
  rw [List.take_append_of_le_length (by simp [hX]), List.take_take, min_self,
    List.take_of_length_le (le_of_eq hX), List.drop_of_length_le (le_of_eq hbuf),
    List.append_nil]

theorem set_id_then_get_id_roundtrip_witness :
    current_thread 0 sampleWorld = some
        { activity_id := sampleId, related_activity_id := List.replicate 16 0 } ∧
    (List.replicate 16 0x5a).length = EP_ACTIVITY_ID_SIZE ∧
    sampleBuffer.length = EP_ACTIVITY_ID_SIZE ∧
    (ves_icall_System_Diagnostics_Tracing_EventPipeInternal_EventActivityIdControl sampleEngine 0
      EP_ACTIVITY_CONTROL_GET_ID sampleBuffer
      (ves_icall_System_Diagnostics_Tracing_EventPipeInternal_EventActivityIdControl sampleEngine
        0 EP_ACTIVITY_CONTROL_SET_ID (List.replicate 16 0x5a) sampleWorld).1).2.1 =
      List.replicate 16 0x5a :=
  ⟨rfl, rfl, rfl,
    (set_id_then_get_id_roundtrip sampleEngine 0 (List.replicate 16 0x5a) sampleBuffer
      sampleWorld _ rfl rfl rfl).2.2⟩

/-- C3, counterexample: thread 0 has the activity id `sampleId` and the random source produces
the same 16 bytes next. `GET_SET_ID` returns 0 and hands out `sampleId`, and the following
`GET_ID` returns 0 and hands out `sampleId` again, not a different value. -/
theorem get_set_id_can_repeat_the_id :
    (ves_icall_System_Diagnostics_Tracing_EventPipeInternal_EventActivityIdControl sampleEngine 0
      EP_ACTIVITY_CONTROL_GET_SET_ID sampleBuffer sampleWorld).2 = (sampleId, .ok 0) ∧
    (ves_icall_System_Diagnostics_Tracing_EventPipeInternal_EventActivityIdControl sampleEngine 0
      EP_ACTIVITY_CONTROL_GET_ID sampleBuffer
      (ves_icall_System_Diagnostics_Tracing_EventPipeInternal_EventActivityIdControl sampleEngine
        0 EP_ACTIVITY_CONTROL_GET_SET_ID sampleBuffer sampleWorld).1).2 = (sampleId, .ok 0) ∧
    ¬ ((ves_icall_System_Diagnostics_Tracing_EventPipeInternal_EventActivityIdControl
          sampleEngine 0 EP_ACTIVITY_CONTROL_GET_ID sampleBuffer
          (ves_icall_System_Diagnostics_Tracing_EventPipeInternal_EventActivityIdControl
            sampleEngine 0 EP_ACTIVITY_CONTROL_GET_SET_ID sampleBuffer sampleWorld).1).2.1 ≠
        (ves_icall_System_Diagnostics_Tracing_EventPipeInternal_EventActivityIdControl
          sampleEngine 0 EP_ACTIVITY_CONTROL_GET_SET_ID sampleBuffer sampleWorld).2.1) := by
  exact ⟨rfl, rfl, fun h => h rfl⟩

/-- C3, amended: on a thread with a context whose current activity id is the 16-byte value
`t.activity_id`, and with the random provider open (`ep_rt_mono_rand_provider` not NULL),
`EventActivityIdControl (GET_SET_ID, buf)` returns 0, writes that id into `buf` and replaces the
thread's activity id with the 16 bytes drawn from the random source, leaving the related
activity id alone; a subsequent `GET_ID` on that thread returns 0 and the drawn id, which
differs from the id `GET_SET_ID` returned exactly when the random source drew a different
value. With the provider closed (NULL, as after `mono_eventpipe_fini`) the call writes the
current id into `buf` and then stops at the assertion of line 71, the world unchanged. -/
theorem get_set_id_returns_old_and_installs_drawn_id (E : Engine σ) (tid : Nat)
    (buf buf2 : List Nat) (w : World σ) (t : EventPipeThread)
    (hctx : current_thread tid w = some t)
    (hA : t.activity_id.length = EP_ACTIVITY_ID_SIZE)
    (hbuf : buf.length = EP_ACTIVITY_ID_SIZE) (hbuf2 : buf2.length = EP_ACTIVITY_ID_SIZE) :
    (w.ep_rt_mono_rand_provider ≠ none →
      (ves_icall_System_Diagnostics_Tracing_EventPipeInternal_EventActivityIdControl E tid
        EP_ACTIVITY_CONTROL_GET_SET_ID buf w).2 = (t.activity_id, .ok 0) ∧
      current_thread tid
        (ves_icall_System_Diagnostics_Tracing_EventPipeInternal_EventActivityIdControl E tid
          EP_ACTIVITY_CONTROL_GET_SET_ID buf w).1 =
        some { t with activity_id := (mono_rand_try_get_bytes E EP_ACTIVITY_ID_SIZE w.ext).1 } ∧
      (ves_icall_System_Diagnostics_Tracing_EventPipeInternal_EventActivityIdControl E tid
        EP_ACTIVITY_CONTROL_GET_ID buf2
        (ves_icall_System_Diagnostics_Tracing_EventPipeInternal_EventActivityIdControl E tid
          EP_ACTIVITY_CONTROL_GET_SET_ID buf w).1).2 =
        ((mono_rand_try_get_bytes E EP_ACTIVITY_ID_SIZE w.ext).1, .ok 0) ∧
      ((ves_icall_System_Diagnostics_Tracing_EventPipeInternal_EventActivityIdControl E tid
          EP_ACTIVITY_CONTROL_GET_ID buf2
          (ves_icall_System_Diagnostics_Tracing_EventPipeInternal_EventActivityIdControl E tid
            EP_ACTIVITY_CONTROL_GET_SET_ID buf w).1).2.1 ≠
        (ves_icall_System_Diagnostics_Tracing_EventPipeInternal_EventActivityIdControl E tid
          EP_ACTIVITY_CONTROL_GET_SET_ID buf w).2.1 ↔
        (mono_rand_try_get_bytes E EP_ACTIVITY_ID_SIZE w.ext).1 ≠ t.activity_id)) ∧
    (w.ep_rt_mono_rand_provider = none →
      ves_icall_System_Diagnostics_Tracing_EventPipeInternal_EventActivityIdControl E tid
        EP_ACTIVITY_CONTROL_GET_SET_ID buf w =
        (w, t.activity_id, .error Fault.assertion_failed)) := by
  constructor
  · intro hprov
    cases hp : w.ep_rt_mono_rand_provider with
    | none => exact absurd hp hprov
    | some p =>
      have hr := mono_rand_try_get_bytes_length E EP_ACTIVITY_ID_SIZE w.ext
      have hstore : current_thread tid
          (thread_store tid
            { t with
              activity_id :=
                memcpy t.activity_id (mono_rand_try_get_bytes E EP_ACTIVITY_ID_SIZE w.ext).1
                  EP_ACTIVITY_ID_SIZE }
            { w with ext := (mono_rand_try_get_bytes E EP_ACTIVITY_ID_SIZE w.ext).2 }) =
          some { t with
            activity_id := (mono_rand_try_get_bytes E EP_ACTIVITY_ID_SIZE w.ext).1 } := by
        rw [current_thread_store tid t _ _ (by rw [current_thread_ext]; exact hctx),
          memcpy_full _ _ _ hr (le_of_eq hA)]
      rw [activity_control_get_set_id E tid buf w t p hctx hp]
      rw [activity_control_get_id E tid buf2 _ _ hstore]
      refine ⟨?_, hstore, ?_, ?_⟩
      · rw [memcpy_full _ _ _ hA (le_of_eq hbuf)]
      · show (memcpy buf2 _ EP_ACTIVITY_ID_SIZE, _) = _
        rw [memcpy_full _ _ _ hr (le_of_eq hbuf2)]
      · show memcpy buf2 _ EP_ACTIVITY_ID_SIZE ≠ memcpy buf _ EP_ACTIVITY_ID_SIZE ↔ _
        rw [memcpy_full _ _ _ hr (le_of_eq hbuf2), memcpy_full _ _ _ hA (le_of_eq hbuf)]
  · intro hp
    rw [activity_control_get_set_id_closed E tid buf w t hctx hp,
      memcpy_full _ _ _ hA (le_of_eq hbuf)]

theorem get_set_id_returns_old_and_installs_drawn_id_witness :
    (current_thread 0 sampleWorld = some
        { activity_id := sampleId, related_activity_id := List.replicate 16 0 } ∧
      sampleId.length = EP_ACTIVITY_ID_SIZE ∧ sampleBuffer.length = EP_ACTIVITY_ID_SIZE ∧
      sampleWorld.ep_rt_mono_rand_provider ≠ none ∧
      (ves_icall_System_Diagnostics_Tracing_EventPipeInternal_EventActivityIdControl sampleEngine
        0 EP_ACTIVITY_CONTROL_GET_SET_ID sampleBuffer sampleWorld).2 = (sampleId, .ok 0)) ∧
    (current_thread 0 (mono_eventpipe_fini sampleWorld) = some
        { activity_id := sampleId, related_activity_id := List.replicate 16 0 } ∧
      (mono_eventpipe_fini sampleWorld).ep_rt_mono_rand_provider = none ∧
      ves_icall_System_Diagnostics_Tracing_EventPipeInternal_EventActivityIdControl sampleEngine
        0 EP_ACTIVITY_CONTROL_GET_SET_ID sampleBuffer (mono_eventpipe_fini sampleWorld) =
        (mono_eventpipe_fini sampleWorld, sampleId, .error Fault.assertion_failed)) :=
  ⟨⟨rfl, rfl, rfl, by simp [sampleWorld],
      ((get_set_id_returns_old_and_installs_drawn_id sampleEngine 0 sampleBuffer sampleBuffer
        sampleWorld { activity_id := sampleId, related_activity_id := List.replicate 16 0 }
        rfl rfl rfl rfl).1 (by simp [sampleWorld])).1⟩,
    ⟨rfl, rfl,
      (get_set_id_returns_old_and_installs_drawn_id sampleEngine 0 sampleBuffer sampleBuffer
        (mono_eventpipe_fini sampleWorld)
        { activity_id := sampleId, related_activity_id := List.replicate 16 0 }
        rfl rfl rfl rfl).2 rfl⟩⟩

/-- C5: `EventActivityIdControl` returns the non-zero result 1 and leaves the whole world (so the
thread's activity id and related activity id) and the caller's buffer unchanged in both failure
cases: (1) on a thread with a context, for every control code other than GET_ID (1), SET_ID (2),
CREATE_ID (3) and GET_SET_ID (4), which includes 0 and CREATE_SET_ID (5); (2) on a thread
without a context, for every control code other than CREATE_ID. -/
theorem activity_control_failure_is_inert (E : Engine σ) (tid control_code : Nat)
    (activity_id : List Nat) (w : World σ)
    (h : (current_thread tid w ≠ none ∧
          control_code ≠ EP_ACTIVITY_CONTROL_GET_ID ∧
          control_code ≠ EP_ACTIVITY_CONTROL_SET_ID ∧
          control_code ≠ EP_ACTIVITY_CONTROL_CREATE_ID ∧
          control_code ≠ EP_ACTIVITY_CONTROL_GET_SET_ID) ∨
        (current_thread tid w = none ∧ control_code ≠ EP_ACTIVITY_CONTROL_CREATE_ID)) :
    ves_icall_System_Diagnostics_Tracing_EventPipeInternal_EventActivityIdControl E tid
        control_code activity_id w = (w, activity_id, .ok 1) ∧
      (1 : Int) ≠ 0 := by
  refine ⟨?_, by decide⟩
  rcases h with ⟨hctx, h1, h2, h3, h4⟩ | ⟨hctx, _⟩
  · cases ht : current_thread tid w with
    | none => exact absurd ht hctx
    | some t => exact activity_control_other_code E tid control_code activity_id w t ht h1 h2 h3 h4
  · exact activity_control_no_context E tid control_code activity_id w hctx

theorem activity_control_failure_is_inert_witness :
    (ves_icall_System_Diagnostics_Tracing_EventPipeInternal_EventActivityIdControl sampleEngine 0
        EP_ACTIVITY_CONTROL_CREATE_SET_ID sampleBuffer sampleWorld =
        (sampleWorld, sampleBuffer, .ok 1) ∧ (1 : Int) ≠ 0) ∧
    (ves_icall_System_Diagnostics_Tracing_EventPipeInternal_EventActivityIdControl sampleEngine 1
        EP_ACTIVITY_CONTROL_GET_ID sampleBuffer sampleWorld =
        (sampleWorld, sampleBuffer, .ok 1) ∧ (1 : Int) ≠ 0) :=
  ⟨activity_control_failure_is_inert sampleEngine 0 EP_ACTIVITY_CONTROL_CREATE_SET_ID
      sampleBuffer sampleWorld
      (Or.inl ⟨by simp [current_thread, sampleWorld, sampleHolder], by decide, by decide,
        by decide, by decide⟩),
    activity_control_failure_is_inert sampleEngine 1 EP_ACTIVITY_CONTROL_GET_ID sampleBuffer
      sampleWorld (Or.inr ⟨rfl, by decide⟩)⟩

/-- C6, counterexample: thread 1 never got a context. `EventActivityIdControl (CREATE_ID, buf)`
on it returns 1, not 0, and leaves the buffer as it was: no id is written. -/
theorem create_id_fails_without_context :
    current_thread 1 sampleWorld = none ∧
    (ves_icall_System_Diagnostics_Tracing_EventPipeInternal_EventActivityIdControl sampleEngine 1
      EP_ACTIVITY_CONTROL_CREATE_ID sampleBuffer sampleWorld).2 = (sampleBuffer, .ok 1) ∧
    (ves_icall_System_Diagnostics_Tracing_EventPipeInternal_EventActivityIdControl sampleEngine 1
      EP_ACTIVITY_CONTROL_CREATE_ID sampleBuffer sampleWorld).2.2 ≠ .ok 0 := by
  refine ⟨rfl, rfl, ?_⟩
  rw [activity_control_no_context sampleEngine 1 _ _ sampleWorld rfl]
  intro h
  cases h

/-- C6, amended: `EventActivityIdControl (CREATE_ID, buf)` needs the calling thread to have a
context, like every other code. On a thread with a context and with the random provider open
(`ep_rt_mono_rand_provider` not NULL) it returns 0 and writes the 16 bytes drawn from the random
source into the 16-byte buffer; only the random source advances, every thread-local slot, and so
every thread context, stays as it was. On a thread with a context and the provider closed (NULL,
as after `mono_eventpipe_fini`) it stops at the assertion of line 71, the world and the buffer
unchanged. On a thread without a context it returns 1 and leaves the world and the buffer
unchanged. -/
theorem create_id_needs_a_context (E : Engine σ) (tid : Nat) (buf : List Nat) (w : World σ)
    (hbuf : buf.length = EP_ACTIVITY_ID_SIZE) :
    (current_thread tid w ≠ none → w.ep_rt_mono_rand_provider ≠ none →
      ves_icall_System_Diagnostics_Tracing_EventPipeInternal_EventActivityIdControl E tid
        EP_ACTIVITY_CONTROL_CREATE_ID buf w =
        ({ w with ext := (mono_rand_try_get_bytes E EP_ACTIVITY_ID_SIZE w.ext).2 },
          (mono_rand_try_get_bytes E EP_ACTIVITY_ID_SIZE w.ext).1, .ok 0) ∧
      (mono_rand_try_get_bytes E EP_ACTIVITY_ID_SIZE w.ext).1.length = EP_ACTIVITY_ID_SIZE ∧
      (ves_icall_System_Diagnostics_Tracing_EventPipeInternal_EventActivityIdControl E tid
        EP_ACTIVITY_CONTROL_CREATE_ID buf w).1.tls = w.tls) ∧
    (current_thread tid w ≠ none → w.ep_rt_mono_rand_provider = none →
      ves_icall_System_Diagnostics_Tracing_EventPipeInternal_EventActivityIdControl E tid
        EP_ACTIVITY_CONTROL_CREATE_ID buf w = (w, buf, .error Fault.assertion_failed)) ∧
    (current_thread tid w = none →
      ves_icall_System_Diagnostics_Tracing_EventPipeInternal_EventActivityIdControl E tid
        EP_ACTIVITY_CONTROL_CREATE_ID buf w = (w, buf, .ok 1)) := by
  refine ⟨?_, ?_, ?_⟩
  · intro hctx hprov
    cases ht : current_thread tid w with
    | none => exact absurd ht hctx
    | some t =>
      obtain ⟨p, hp⟩ := Option.ne_none_iff_exists.mp hprov
      rw [activity_control_create_id E tid buf w t p ht hp.symm,
        memcpy_full _ _ _ (mono_rand_try_get_bytes_length E _ _) (le_of_eq hbuf)]
      exact ⟨rfl, mono_rand_try_get_bytes_length E _ _, rfl⟩
  · intro hctx hp
    cases ht : current_thread tid w with
    | none => exact absurd ht hctx
    | some t => exact activity_control_create_id_closed E tid buf w t ht hp
  · exact activity_control_no_context E tid _ buf w

theorem create_id_needs_a_context_witness :
    sampleBuffer.length = EP_ACTIVITY_ID_SIZE ∧
    (current_thread 0 sampleWorld ≠ none ∧ sampleWorld.ep_rt_mono_rand_provider ≠ none ∧
      (ves_icall_System_Diagnostics_Tracing_EventPipeInternal_EventActivityIdControl sampleEngine
        0 EP_ACTIVITY_CONTROL_CREATE_ID sampleBuffer sampleWorld).2 = (sampleId, .ok 0)) ∧
    (current_thread 0 (mono_eventpipe_fini sampleWorld) ≠ none ∧
      (mono_eventpipe_fini sampleWorld).ep_rt_mono_rand_provider = none ∧
      ves_icall_System_Diagnostics_Tracing_EventPipeInternal_EventActivityIdControl sampleEngine
        0 EP_ACTIVITY_CONTROL_CREATE_ID sampleBuffer (mono_eventpipe_fini sampleWorld) =
        (mono_eventpipe_fini sampleWorld, sampleBuffer, .error Fault.assertion_failed)) :=
  ⟨rfl,
    ⟨by simp [current_thread, sampleWorld, sampleHolder], by simp [sampleWorld],
      congrArg Prod.snd
        ((create_id_needs_a_context sampleEngine 0 sampleBuffer sampleWorld rfl).1
          (by simp [current_thread, sampleWorld, sampleHolder]) (by simp [sampleWorld])).1⟩,
    ⟨by simp [current_thread, mono_eventpipe_fini, sampleWorld, sampleHolder], rfl,
      (create_id_needs_a_context sampleEngine 0 sampleBuffer (mono_eventpipe_fini sampleWorld)
        rfl).2.1
        (by simp [current_thread, mono_eventpipe_fini, sampleWorld, sampleHolder]) rfl⟩⟩

/-! ## Thread context registry -/

theorem tls_set_none_self (tid : Nat) (w : World σ) (h : w.tls tid = none) :
    mono_native_tls_set_value tid none w = w := by
  unfold mono_native_tls_set_value
  rw [← h, Function.update_eq_self]

/-- C7, counterexample: after `mono_eventpipe_fini` the flag is off and no deallocator is
registered. Thread 0 still holds `sampleHolder`; its exit notification invokes nothing (the log
of external calls does not grow) and leaves the holder in the slot. -/
theorem thread_exited_after_fini_keeps_the_holder :
    (mono_eventpipe_fini sampleWorld).tls 0 = some sampleHolder ∧
    (eventpipe_thread_exited 0 (mono_eventpipe_fini sampleWorld)).calls =
      (mono_eventpipe_fini sampleWorld).calls ∧
    (eventpipe_thread_exited 0 (mono_eventpipe_fini sampleWorld)).tls 0 = some sampleHolder ∧
    ¬ ((eventpipe_thread_exited 0 (mono_eventpipe_fini sampleWorld)).calls =
          (mono_eventpipe_fini sampleWorld).calls ++ [Call.thread_holder_free sampleHolder] ∧
        (eventpipe_thread_exited 0 (mono_eventpipe_fini sampleWorld)).tls 0 = none) := by
  refine ⟨rfl, rfl, rfl, ?_⟩
  rintro ⟨_, h⟩
  have h2 : (eventpipe_thread_exited 0 (mono_eventpipe_fini sampleWorld)).tls 0 =
      some sampleHolder := rfl
  rw [h2] at h
  cases h

/-- C7, amended: in every registry state that is initialised and has a deallocator registered,
the thread-exit notification invokes the deallocator exactly once, on the holder in the calling
thread's slot, if the slot holds one, invokes it not at all if the slot is empty, and leaves the
slot empty. In every registry state whatsoever, an immediately repeated notification on the same
thread leaves the whole state unchanged, so it invokes the deallocator zero times and no holder
is handed to it twice. The slot is left empty in every initialised state, with or without a
deallocator. -/
theorem thread_exited_frees_once_and_is_idempotent (tid : Nat) (w : World σ) :
    (∀ free, w.ep_rt_mono_initialized = true → w.thread_holder_free_callback_func = some free →
      (∀ h, w.tls tid = some h →
        (eventpipe_thread_exited tid w).calls = w.calls ++ [Call.thread_holder_free h] ∧
        (eventpipe_thread_exited tid w).ext = free h w.ext) ∧
      (w.tls tid = none → eventpipe_thread_exited tid w = w) ∧
      (eventpipe_thread_exited tid w).tls tid = none) ∧
    eventpipe_thread_exited tid (eventpipe_thread_exited tid w) = eventpipe_thread_exited tid w ∧
    (eventpipe_thread_exited tid (eventpipe_thread_exited tid w)).calls =
      (eventpipe_thread_exited tid w).calls ∧
    (w.ep_rt_mono_initialized = true → (eventpipe_thread_exited tid w).tls tid = none) := by
  have hclear : w.ep_rt_mono_initialized = true →
      (eventpipe_thread_exited tid w).tls tid = none := by
    intro hi
    unfold eventpipe_thread_exited mono_native_tls_set_value
    rw [hi]
    simp
  have hidem : eventpipe_thread_exited tid (eventpipe_thread_exited tid w) =
      eventpipe_thread_exited tid w := by
    cases hi : w.ep_rt_mono_initialized with
    | false =>
      have h1 : eventpipe_thread_exited tid w = w := by
        unfold eventpipe_thread_exited
        rw [hi]
        rfl
      rw [h1, h1]
    | true =>
      have hinit : (eventpipe_thread_exited tid w).ep_rt_mono_initialized = true := by
        unfold eventpipe_thread_exited mono_native_tls_set_value mono_native_tls_get_value
        rw [hi]
        cases w.tls tid <;> cases w.thread_holder_free_callback_func <;> simp [hi]
      have hslot : (eventpipe_thread_exited tid w).tls tid = none := by
        unfold eventpipe_thread_exited mono_native_tls_set_value
        rw [hi]
        simp
      generalize eventpipe_thread_exited tid w = v at hinit hslot
      unfold eventpipe_thread_exited mono_native_tls_get_value
      rw [hinit, hslot]
      exact tls_set_none_self tid v hslot
  refine ⟨?_, hidem, by rw [hidem], hclear⟩
  intro free hi hf
  refine ⟨?_, ?_, ?_⟩
  · intro h hs
    unfold eventpipe_thread_exited mono_native_tls_set_value mono_native_tls_get_value
    rw [hi, hs, hf]
    exact ⟨rfl, rfl⟩
  · intro hs
    unfold eventpipe_thread_exited mono_native_tls_get_value
    rw [hi, hs]
    exact tls_set_none_self tid w hs
  · unfold eventpipe_thread_exited mono_native_tls_set_value
    rw [hi]
    simp

theorem thread_exited_frees_once_and_is_idempotent_witness :
    sampleWorld.ep_rt_mono_initialized = true ∧ sampleWorld.tls 0 = some sampleHolder ∧
    (eventpipe_thread_exited 0 sampleWorld).calls =
      sampleWorld.calls ++ [Call.thread_holder_free sampleHolder] ∧
    (eventpipe_thread_exited 0 sampleWorld).tls 0 = none ∧
    eventpipe_thread_exited 0 (eventpipe_thread_exited 0 sampleWorld) =
      eventpipe_thread_exited 0 sampleWorld :=
  ⟨rfl, rfl,
    (((thread_exited_frees_once_and_is_idempotent 0 sampleWorld).1 _ rfl rfl).1
      sampleHolder rfl).1,
    ((thread_exited_frees_once_and_is_idempotent 0 sampleWorld).1 _ rfl rfl).2.2,
    (thread_exited_frees_once_and_is_idempotent 0 sampleWorld).2.1⟩

theorem get_or_create_of_slot (tid : Nat) (w : World σ) (h : EventPipeThreadHolder)
    (hs : w.tls tid = some h) : eventpipe_thread_get_or_create tid w = (w, .ok h.thread) := by
  unfold eventpipe_thread_get_or_create mono_native_tls_get_value
  rw [hs]
  cases w.thread_holder_alloc_callback_func <;> rfl

theorem get_or_create_of_empty (tid : Nat) (w : World σ)
    (alloc : σ → Option EventPipeThreadHolder × σ)
    (hreg : w.thread_holder_alloc_callback_func = some alloc) (hs : w.tls tid = none) :
    eventpipe_thread_get_or_create tid w =
      (mono_native_tls_set_value tid (alloc w.ext).1
          { w with ext := (alloc w.ext).2, calls := w.calls ++ [Call.thread_holder_alloc] },
        ep_thread_holder_get_thread (alloc w.ext).1) := by
  unfold eventpipe_thread_get_or_create mono_native_tls_get_value
  rw [hs, hreg]

theorem thread_get_eq (tid : Nat) (w : World σ) :
    eventpipe_thread_get tid w = (w, .ok (current_thread tid w)) :=
  ep_thread_get_eq tid w

/-- C8: with an allocator registered, `eventpipe_thread_get_or_create` invokes the allocator
exactly when the calling thread's slot is empty (one invocation, its result stored in the slot)
and not at all when the slot holds a holder (the world is unchanged). Once the slot holds a
holder, the call returned that holder's context, and every later `eventpipe_thread_get_or_create`
or `eventpipe_thread_get` on that thread returns the same context and leaves the world, and so
the log of allocator invocations, unchanged. `eventpipe_thread_get` never changes the world and
returns absent on an empty slot. -/
theorem get_or_create_allocates_once (tid : Nat) (w : World σ)
    (alloc : σ → Option EventPipeThreadHolder × σ)
    (hreg : w.thread_holder_alloc_callback_func = some alloc) :
    (w.tls tid = none →
      (eventpipe_thread_get_or_create tid w).1.calls = w.calls ++ [Call.thread_holder_alloc] ∧
      (eventpipe_thread_get_or_create tid w).1.tls tid = (alloc w.ext).1 ∧
      (eventpipe_thread_get_or_create tid w).1.ext = (alloc w.ext).2) ∧
    (∀ h, w.tls tid = some h → eventpipe_thread_get_or_create tid w = (w, .ok h.thread)) ∧
    (∀ h, (eventpipe_thread_get_or_create tid w).1.tls tid = some h →
      (eventpipe_thread_get_or_create tid w).2 = .ok h.thread ∧
      eventpipe_thread_get_or_create tid (eventpipe_thread_get_or_create tid w).1 =
        ((eventpipe_thread_get_or_create tid w).1, .ok h.thread) ∧
      eventpipe_thread_get tid (eventpipe_thread_get_or_create tid w).1 =
        ((eventpipe_thread_get_or_create tid w).1, .ok h.thread)) ∧
    (∀ v : World σ, (eventpipe_thread_get tid v).1 = v ∧
      (v.tls tid = none → (eventpipe_thread_get tid v).2 = .ok none)) := by
  refine ⟨?_, fun h hs => get_or_create_of_slot tid w h hs, ?_, ?_⟩
  · intro hs
    rw [get_or_create_of_empty tid w alloc hreg hs]
    refine ⟨rfl, ?_, rfl⟩
    simp [mono_native_tls_set_value]
  · intro h hh
    have hget : eventpipe_thread_get tid (eventpipe_thread_get_or_create tid w).1 =
        ((eventpipe_thread_get_or_create tid w).1, .ok h.thread) := by
      rw [thread_get_eq]
      unfold current_thread
      rw [hh]
    refine ⟨?_, get_or_create_of_slot tid _ h hh, hget⟩
    cases hs : w.tls tid with
    | some h0 =>
      rw [get_or_create_of_slot tid w h0 hs] at hh ⊢
      have : h0 = h := by
        have h1 : w.tls tid = some h := hh
        rw [hs] at h1
        exact Option.some.inj h1
      rw [this]
    | none =>
      rw [get_or_create_of_empty tid w alloc hreg hs] at hh ⊢
      have h1 : (alloc w.ext).1 = some h := by
        simpa [mono_native_tls_set_value] using hh
      show ep_thread_holder_get_thread (alloc w.ext).1 = _
      rw [h1]
      rfl
  · intro v
    refine ⟨rfl, fun hv => ?_⟩
    rw [thread_get_eq]
    unfold current_thread
    rw [hv]

theorem get_or_create_allocates_once_witness :
    sampleWorld.tls 1 = none ∧
    (eventpipe_thread_get_or_create 1 sampleWorld).1.calls =
      sampleWorld.calls ++ [Call.thread_holder_alloc] ∧
    (eventpipe_thread_get_or_create 1 sampleWorld).1.tls 1 = some sampleHolder ∧
    eventpipe_thread_get_or_create 1 (eventpipe_thread_get_or_create 1 sampleWorld).1 =
      ((eventpipe_thread_get_or_create 1 sampleWorld).1, .ok sampleHolder.thread) :=
  ⟨rfl,
    ((get_or_create_allocates_once 1 sampleWorld _ rfl).1 rfl).1,
    ((get_or_create_allocates_once 1 sampleWorld _ rfl).1 rfl).2.1,
    ((get_or_create_allocates_once 1 sampleWorld _ rfl).2.2.1 sampleHolder rfl).2.1⟩

/-- C9, what the code does: with no allocator registered and the calling thread's slot empty,
`eventpipe_thread_get_or_create` leaves the world alone but hands the absent holder to the
accessor `ep_thread_holder_get_thread` (line 92), a read through NULL, where
`eventpipe_thread_get` (line 80) tests the holder first and answers absent. -/
theorem get_or_create_without_allocator_reads_absent_holder (tid : Nat) (w : World σ)
    (hreg : w.thread_holder_alloc_callback_func = none) (hs : w.tls tid = none) :
    eventpipe_thread_get_or_create tid w = (w, .error Fault.null_thread_holder) ∧
    eventpipe_thread_get tid w = (w, .ok none) := by
  constructor
  · unfold eventpipe_thread_get_or_create mono_native_tls_get_value
    rw [hs, hreg]
    rfl
  · rw [thread_get_eq]
    unfold current_thread
    rw [hs]

theorem get_or_create_without_allocator_reads_absent_holder_witness :
    ((mono_eventpipe_fini sampleWorld).thread_holder_alloc_callback_func = none ∧
      (mono_eventpipe_fini sampleWorld).tls 1 = none ∧
      eventpipe_thread_get_or_create 1 (mono_eventpipe_fini sampleWorld) =
        (mono_eventpipe_fini sampleWorld, .error Fault.null_thread_holder)) ∧
    ((mono_eventpipe_init none none (some 1) sampleWorld).thread_holder_alloc_callback_func =
        none ∧
      (mono_eventpipe_init none none (some 1) sampleWorld).tls 0 = none ∧
      eventpipe_thread_get_or_create 0 (mono_eventpipe_init none none (some 1) sampleWorld) =
        (mono_eventpipe_init none none (some 1) sampleWorld,
          .error Fault.null_thread_holder)) :=
  ⟨⟨rfl, rfl,
      (get_or_create_without_allocator_reads_absent_holder 1 (mono_eventpipe_fini sampleWorld)
        rfl rfl).1⟩,
    ⟨rfl, rfl,
      (get_or_create_without_allocator_reads_absent_holder 0
        (mono_eventpipe_init none none (some 1) sampleWorld) rfl rfl).1⟩⟩

/-! ## Polling the next event -/

theorem get_next_event_of_none (E : Engine σ) (session_id : Nat)
    (data : EventPipeEventInstanceData) (w : World σ)
    (h : (E.ep_get_next_event session_id w.ext).1 = none) :
    ves_icall_System_Diagnostics_Tracing_EventPipeInternal_GetNextEvent E session_id
      (some data) w =
      ({ w with
          ext := (E.ep_get_next_event session_id w.ext).2
          calls := w.calls ++ [Call.ep_get_next_event session_id] },
        some data, .ok false) := by
  simp [ves_icall_System_Diagnostics_Tracing_EventPipeInternal_GetNextEvent, h]

theorem get_next_event_of_some (E : Engine σ) (session_id : Nat)
    (data : EventPipeEventInstanceData) (w : World σ) (ni : EventPipeEventInstance)
    (h : (E.ep_get_next_event session_id w.ext).1 = some ni) :
    ves_icall_System_Diagnostics_Tracing_EventPipeInternal_GetNextEvent E session_id
      (some data) w =
      ({ w with
          ext := (E.ep_get_next_event session_id w.ext).2
          calls := w.calls ++ [Call.ep_get_next_event session_id] },
        some
          { provider_id := (ni.ep_event.elim data.provider_id fun ev => ev.provider)
            event_id := (ni.ep_event.elim data.event_id fun ev => ev.event_id)
            thread_id := ni.thread_id
            timestamp := ni.timestamp
            activity_id := memcpy data.activity_id ni.activity_id EP_ACTIVITY_ID_SIZE
            related_activity_id :=
              memcpy data.related_activity_id ni.related_activity_id EP_ACTIVITY_ID_SIZE
            payload := ni.data
            payload_len := ni.data_len },
        .ok true) := by
  cases he : ni.ep_event <;>
    simp [ves_icall_System_Diagnostics_Tracing_EventPipeInternal_GetNextEvent, h, he]

/-- C10, counterexample: the engine yields, for session 1, an instance that carries no event.
`GetNextEvent` returns true, yet the provider id and the event id of the record still hold the
record's previous contents, 7 and 9. -/
theorem get_next_event_can_keep_stale_ids :
    (sampleEngine.ep_get_next_event 1 sampleWorld.ext).1.isSome = true ∧
    (ves_icall_System_Diagnostics_Tracing_EventPipeInternal_GetNextEvent sampleEngine 1
      (some sampleRecord) sampleWorld).2.2 = .ok true ∧
    (ves_icall_System_Diagnostics_Tracing_EventPipeInternal_GetNextEvent sampleEngine 1
      (some sampleRecord) sampleWorld).2.1.map (fun d => (d.provider_id, d.event_id)) =
      some (sampleRecord.provider_id, sampleRecord.event_id) ∧
    ¬ ∃ ev, (sampleEngine.ep_get_next_event 1 sampleWorld.ext).1.bind (fun i => i.ep_event) =
        some ev ∧
      (ves_icall_System_Diagnostics_Tracing_EventPipeInternal_GetNextEvent sampleEngine 1
        (some sampleRecord) sampleWorld).2.1.map (fun d => (d.provider_id, d.event_id)) =
        some (ev.provider, ev.event_id) := by
  refine ⟨rfl, rfl, rfl, ?_⟩
  rintro ⟨ev, h, _⟩
  have h0 : (sampleEngine.ep_get_next_event 1 sampleWorld.ext).1.bind (fun i => i.ep_event) =
      none := rfl
  rw [h0] at h
  cases h

/-- C10, amended: for every session id and every output record (with 16-byte identifier
arrays), `GetNextEvent` asks the engine once and returns true exactly when the engine yields a
next instance. When it returns true, the thread id, timestamp, activity id, related activity
id, payload pointer and payload length of the record equal those of the instance (whose
identifiers are 16 bytes); the provider id and event id equal those of the instance's event
when the instance carries one, and keep the record's previous contents when it carries none.
When it returns false, the record is left unchanged. -/
theorem get_next_event_copies_instance (E : Engine σ) (session_id : Nat)
    (data : EventPipeEventInstanceData) (w : World σ)
    (hd1 : data.activity_id.length = EP_ACTIVITY_ID_SIZE)
    (hd2 : data.related_activity_id.length = EP_ACTIVITY_ID_SIZE) :
    (ves_icall_System_Diagnostics_Tracing_EventPipeInternal_GetNextEvent E session_id
      (some data) w).2.2 = .ok (E.ep_get_next_event session_id w.ext).1.isSome ∧
    (ves_icall_System_Diagnostics_Tracing_EventPipeInternal_GetNextEvent E session_id
      (some data) w).1.calls = w.calls ++ [Call.ep_get_next_event session_id] ∧
    (∀ next_instance, (E.ep_get_next_event session_id w.ext).1 = some next_instance →
      next_instance.activity_id.length = EP_ACTIVITY_ID_SIZE →
      next_instance.related_activity_id.length = EP_ACTIVITY_ID_SIZE →
      ∃ d, (ves_icall_System_Diagnostics_Tracing_EventPipeInternal_GetNextEvent E session_id
          (some data) w).2.1 = some d ∧
        d.thread_id = next_instance.thread_id ∧
        d.timestamp = next_instance.timestamp ∧
        d.activity_id = next_instance.activity_id ∧
        d.related_activity_id = next_instance.related_activity_id ∧
        d.payload = next_instance.data ∧
        d.payload_len = next_instance.data_len ∧
        (∀ ev, next_instance.ep_event = some ev →
          d.provider_id = ev.provider ∧ d.event_id = ev.event_id) ∧
        (next_instance.ep_event = none →
          d.provider_id = data.provider_id ∧ d.event_id = data.event_id)) ∧
    ((E.ep_get_next_event session_id w.ext).1 = none →
      (ves_icall_System_Diagnostics_Tracing_EventPipeInternal_GetNextEvent E session_id
        (some data) w).2.1 = some data) := by
  cases hn : (E.ep_get_next_event session_id w.ext).1 with
  | none =>
    rw [get_next_event_of_none E session_id data w hn]
    refine ⟨rfl, rfl, ?_, fun _ => rfl⟩
    intro next_instance h
    cases h
  | some ni =>
    rw [get_next_event_of_some E session_id data w ni hn]
    refine ⟨rfl, rfl, ?_, ?_⟩
    · intro next_instance h ha hr
      cases h
      refine ⟨_, rfl, rfl, rfl, ?_, ?_, rfl, rfl, ?_, ?_⟩
      · show memcpy _ _ _ = _
        cases he : ni.ep_event <;> exact memcpy_full _ _ _ ha (le_of_eq hd1)
      · show memcpy _ _ _ = _
        cases he : ni.ep_event <;> exact memcpy_full _ _ _ hr (le_of_eq hd2)
      · intro ev he
        simp [he]
      · intro he
        simp [he]
    · intro h
      cases h

theorem get_next_event_copies_instance_witness :
    sampleRecord.activity_id.length = EP_ACTIVITY_ID_SIZE ∧
    sampleRecord.related_activity_id.length = EP_ACTIVITY_ID_SIZE ∧
    (ves_icall_System_Diagnostics_Tracing_EventPipeInternal_GetNextEvent sampleEngine 1
      (some sampleRecord) sampleWorld).2.2 =
      .ok (sampleEngine.ep_get_next_event 1 sampleWorld.ext).1.isSome ∧
    (ves_icall_System_Diagnostics_Tracing_EventPipeInternal_GetNextEvent sampleEngine 3
      (some sampleRecord) sampleWorld).2.1 = some sampleRecord ∧
    (∃ d, (ves_icall_System_Diagnostics_Tracing_EventPipeInternal_GetNextEvent sampleEngine 2
        (some sampleRecord) sampleWorld).2.1 = some d ∧
      d.thread_id = 3 ∧ d.timestamp = 2000 ∧ d.activity_id = List.replicate 16 1 ∧
      d.related_activity_id = List.replicate 16 2 ∧ d.payload = some 8192 ∧
      d.payload_len = 24 ∧ d.provider_id = 4242 ∧ d.event_id = 5) :=
  ⟨rfl, rfl,
    (get_next_event_copies_instance sampleEngine 1 sampleRecord sampleWorld rfl rfl).1,
    (get_next_event_copies_instance sampleEngine 3 sampleRecord sampleWorld rfl rfl).2.2.2 rfl,
    match (get_next_event_copies_instance sampleEngine 2 sampleRecord sampleWorld
      rfl rfl).2.2.1 sampleInstance rfl rfl rfl with
    | ⟨d, h0, h1, h2, h3, h4, h5, h6, hev, _⟩ =>
      ⟨d, h0, h1, h2, h3, h4, h5, h6, (hev _ rfl).1, (hev _ rfl).2⟩⟩

end EventPipe
